import Mathlib

/-!
Shallow embedding of the loop/effect registry and code compiler of the
project-papa client (src/src/generation/Coordinator.ts and
src/src/generation/LiveLoop.ts), together with theorems settling the
frozen claims about its specification.

Modelling conventions:
* TypeScript numbers used as integers (channel numbers, effect indices,
  id counters) are `Int`/`Nat`; the volume (a JS double used only through
  comparisons with 0 and 1 and string rendering) is `ℚ`.
* A TS value that can be `undefined` is an `Option`; JS string coercion of
  `undefined` yields the text "undefined".
* `SonicPiCommunicator.runCode` is fire-and-forget transport output; it is
  modelled as an append-only `published` log on the coordinator state.
* The static directory module `directory.ts` (`getRubyForLiveLoop`,
  `getEffect`, `getNumberOfEffects`) is not among the provided sources; it
  is an explicitly excluded collaborator, modelled from the spec as a
  parameter record `Directory` (spec §1, §6).
-/

/-- Effect descriptor: the only field the compiler reads is `name`
(`with_fx :<name>`); parameters are a TODO in the source. -/
structure Effect where
  name : String
  deriving DecidableEq, Repr

/-- Modelled from the spec: the static loop-body/effect directory
(`lookupLoopBody(name)`, `lookupEffect(index)`, `effectCount()`, spec §1/§6),
whose source file `directory.ts` is not under src/. -/
structure Directory where
  getRubyForLiveLoop : String → String
  getEffect : Int → Effect
  numOfEffects : Int

/-- Sample directory instantiation used for concrete scenario runs. -/
def dir₀ : Directory where
  getRubyForLiveLoop := fun n => "play :" ++ n
  getEffect := fun i => if i = 0 then ⟨"reverb"⟩ else ⟨"echo"⟩
  numOfEffects := 2

/-- JS string coercion of a possibly-undefined string. -/
def jsStr : Option String → String
  | none => "undefined"
  | some s => s

/-- JS string coercion of a possibly-undefined integer (scope numbers). -/
def optIntToStr : Option Int → String
  | none => "undefined"
  | some n => toString n

/-- JS number-to-string coercion for the volume. Exact on integers (the only
volume values whose rendered text the source pins down in the claims);
non-integral rationals are rendered as num/den. -/
def numToStr (q : ℚ) : String :=
  if q.den = 1 then toString q.num else toString q.num ++ "/" ++ toString q.den

/-- LiveLoop.ts fields. `rawRuby` and `name` are declared `readonly` in the
source but never assigned by the constructor (the constructor binds the
looked-up body to a local `const rawRuby`), so both stay `undefined`. -/
structure LiveLoop where
  rawRuby : Option String
  name : Option String
  volume : ℚ
  outputRuby : String
  id : Nat
  tag : String
  effectNum : Int
  effectData : Effect
  scopeNum : Option Int
  deriving DecidableEq, Repr

/-- LiveLoop.generateRuby: resets the output to `this.rawRuby`, then wraps it
in the effect wrapper, the volume wrapper, the oscilloscope (telemetry)
wrapper and the live_loop declaration, innermost first. It never reads the
previous `outputRuby`. -/
def LiveLoop.generateRuby (l : LiveLoop) : LiveLoop :=
  let s := jsStr l.rawRuby
  let s := "with_fx :" ++ l.effectData.name ++ " do\n" ++ s ++ "\nend\n"
  let s := "with_fx :level, amp: " ++ numToStr l.volume ++ " do\n" ++ s ++ "\nend\n"
  let s := "with_fx \"sonic-pi-fx_scope_out\", scope_num: " ++ optIntToStr l.scopeNum
             ++ " do\n" ++ s ++ "\nend\n"
  let s := "live_loop :" ++ l.tag ++ " do\n" ++ s ++ "\nend"
  { l with outputRuby := s }

/-- LiveLoop.setVolume: clamps the argument into [0,1]. The source method
only assigns `this.volume`; it does not regenerate or push any ruby. -/
def LiveLoop.setVolume (v : ℚ) (l : LiveLoop) : LiveLoop :=
  if v < 0 then { l with volume := 0 }
  else if v > 1 then { l with volume := 1 }
  else { l with volume := v }

/-- LiveLoop.nextEffect (loop-local part): advances the effect index with the
JS `%` operator (truncated remainder, `Int.tmod`), refreshes `effectData`,
and regenerates this loop's ruby. -/
def LiveLoop.nextEffect (dir : Directory) (l : LiveLoop) : LiveLoop :=
  let e := (l.effectNum + 1).tmod dir.numOfEffects
  LiveLoop.generateRuby { l with effectNum := e, effectData := dir.getEffect e }

/-- LiveLoop.prevEffect (loop-local part): retreats the effect index with the
JS `%` operator (truncated remainder, so `(0 - 1) % n = -1`). -/
def LiveLoop.prevEffect (dir : Directory) (l : LiveLoop) : LiveLoop :=
  let e := (l.effectNum - 1).tmod dir.numOfEffects
  LiveLoop.generateRuby { l with effectNum := e, effectData := dir.getEffect e }

/-- GLOBAL_OSCILLOSCOPE_INDEX from Coordinator.ts. -/
def GLOBAL_OSCILLOSCOPE_INDEX : Nat := 1

/-- Coordinator.ts state, together with the `LiveLoop.idCount` static counter
and the transport log. `activeLoops`/`deadLoops` are JS `Set`s of object
references, iterated in insertion order; they are modelled as lists kept in
insertion order (ids are process-unique, so id equality is object identity). -/
structure Coordinator where
  header : String
  outputRuby : String
  freeScopeNums : List (Option Int)
  activeLoops : List LiveLoop
  deadLoops : List LiveLoop
  idCount : Nat
  published : List String
  deriving DecidableEq, Repr

/-- The header template literal fixed by the Coordinator constructor. -/
def headerText : String :=
  "use_bpm 100\n\n    live_loop :metronome_2 do\n      sleep 2\n    end\n\n    live_loop :metronome_4 do\n      sync :metronome_2\n      with_fx :level, amp: 0.5 do\n        use_synth :chipbass\n        play 110, amp: 5, release: 0.02\n        sleep 1\n        play 90, release: 0.01\n        sleep 1\n        play 90, release: 0.01\n        sleep 1\n        play 90, release: 0.01\n        sleep 1\n      end\n    end\n\n    live_loop :metronome_8 do\n      sync :metronome_4\n      sleep 8\n    end"

/-- The free scope pool built by the constructor loop `for (i = 2; i < 128)`:
the channels 2..127 in increasing order. -/
def initialPool : List (Option Int) :=
  (List.range' 2 126).map (fun i => some (i : Int))

/-- A fresh Coordinator (constructor), with `idCount` at its initial 0.
`outputRuby` is undefined until the first compile; it is only ever read after
being assigned, so it is initialised to "" here. -/
def Coordinator.mk0 : Coordinator where
  header := headerText
  outputRuby := ""
  freeScopeNums := initialPool
  activeLoops := []
  deadLoops := []
  idCount := 0
  published := []

/-- Coordinator.getFreeScope's return value: `Array.shift()` removes and
returns the FIRST element, or `undefined` when the array is empty. -/
def shiftVal (p : List (Option Int)) : Option Int :=
  match p with
  | [] => none
  | x :: _ => x

/-- Coordinator.generateRuby: header, then each active loop's ruby, the whole
wrapped once in the global oscilloscope wrapper for channel 1, then one stop
block per dead loop, after which `deadLoops` is reset; the result is stored
and handed to `communicator.runCode` (the `published` log). -/
def Coordinator.generateRuby (c : Coordinator) : Coordinator :=
  let out := c.header ++ "\n"
  let out := c.activeLoops.foldl (fun acc l => acc ++ l.outputRuby ++ "\n") out
  let out := "\n      with_fx \"sonic-pi-fx_scope_out\", scope_num: "
               ++ toString GLOBAL_OSCILLOSCOPE_INDEX ++ " do\n        "
               ++ out ++ "\n      end\n    "
  if c.deadLoops.isEmpty then
    { c with outputRuby := out, published := c.published ++ [out] }
  else
    let out := c.deadLoops.foldl
      (fun acc l => acc ++ "live_loop :" ++ l.tag ++ " do\n  stop\nend\n") out
    { c with outputRuby := out, deadLoops := [], published := c.published ++ [out] }

/-- `new LiveLoop(name)` followed by `Coordinator.addLoopToSet`: acquires a
scope number (Array.shift), looks up the body template into a local that is
never stored (so `rawRuby` stays undefined), takes a fresh id and tag,
compiles the loop's own ruby, registers the loop in `activeLoops`, and
triggers a coordinator compile+publish. Returns the constructed loop. -/
def createLoop (dir : Directory) (name : String) (c : Coordinator) :
    LiveLoop × Coordinator :=
  let scope := shiftVal c.freeScopeNums
  let c := { c with freeScopeNums := c.freeScopeNums.tail }
  let _bodyRuby := dir.getRubyForLiveLoop name
  let l : LiveLoop :=
    { rawRuby := none
      name := none
      volume := 1
      outputRuby := ""
      id := c.idCount
      tag := "loop_" ++ toString c.idCount ++ "_" ++ name
      effectNum := 0
      effectData := dir.getEffect 0
      scopeNum := scope }
  let l := LiveLoop.generateRuby l
  let c := { c with idCount := c.idCount + 1, activeLoops := c.activeLoops ++ [l] }
  (l, Coordinator.generateRuby c)

/-- Coordinator.removeLoopFromSet (also `LiveLoop.delete`): throws when the
loop is not in the active set; otherwise moves it to `deadLoops`, pushes its
scope number to the BACK of the free list, and recompiles+publishes. -/
def removeLoopFromSet (l : LiveLoop) (c : Coordinator) : Except String Coordinator :=
  if c.activeLoops.any (fun a => a.id == l.id) then
    let c :=
      { c with activeLoops := c.activeLoops.filter (fun a => !(a.id == l.id)),
               deadLoops := c.deadLoops ++ [l],
               freeScopeNums := c.freeScopeNums ++ [l.scopeNum] }
    Except.ok (Coordinator.generateRuby c)
  else
    Except.error ("Loop tag " ++ l.tag ++ " not present.")

/-- The TS sets hold object references, so a LiveLoop method mutating `this`
is visible through `activeLoops`/`deadLoops`; in the value model the stored
copy is replaced via id (identity) equality. -/
def updateLoop (l : LiveLoop) (c : Coordinator) : Coordinator :=
  { c with activeLoops := c.activeLoops.map (fun a => if a.id == l.id then l else a),
           deadLoops := c.deadLoops.map (fun a => if a.id == l.id then l else a) }

/-- System-level `setVolume`: the method assigns the clamped volume and
nothing else — no `generateRuby`, no coordinator push. -/
def setVolumeSys (v : ℚ) (l : LiveLoop) (c : Coordinator) : LiveLoop × Coordinator :=
  let l2 := LiveLoop.setVolume v l
  (l2, updateLoop l2 c)

/-- System-level `nextEffect`: the loop-local update followed by
`generateAndPushRuby`'s coordinator compile+publish. -/
def nextEffectSys (dir : Directory) (l : LiveLoop) (c : Coordinator) :
    LiveLoop × Coordinator :=
  let l2 := LiveLoop.nextEffect dir l
  (l2, Coordinator.generateRuby (updateLoop l2 c))

/-- System-level `prevEffect`. -/
def prevEffectSys (dir : Directory) (l : LiveLoop) (c : Coordinator) :
    LiveLoop × Coordinator :=
  let l2 := LiveLoop.prevEffect dir l
  (l2, Coordinator.generateRuby (updateLoop l2 c))

/-- Modelled from the spec: the intended `compile()` nesting (§4.2/§6) —
innermost first: a raw body, the effect wrapper, the volume wrapper, the
per-loop telemetry wrapper, the named declaration. Used to compare the
source's `generateRuby` output against the spec's intended innermost body. -/
def specCompile (body : String) (l : LiveLoop) : String :=
  "live_loop :" ++ l.tag ++ " do\n"
    ++ ("with_fx \"sonic-pi-fx_scope_out\", scope_num: " ++ optIntToStr l.scopeNum ++ " do\n"
    ++ ("with_fx :level, amp: " ++ numToStr l.volume ++ " do\n"
    ++ ("with_fx :" ++ l.effectData.name ++ " do\n" ++ body ++ "\nend\n")
    ++ "\nend\n") ++ "\nend\n") ++ "\nend"

/-- Concatenation of a list of strings (used to state compile-output shapes). -/
def concatStrs (l : List String) : String :=
  l.foldr (fun a b => a ++ b) ""

/-- Scenario: create loop A ("alpha") on a fresh system. -/
def sA : LiveLoop × Coordinator := createLoop dir₀ "alpha" Coordinator.mk0

/-- The loop A object held by the caller. -/
def lA : LiveLoop := sA.1

/-- Scenario: then create loop B ("beta"). -/
def sB : LiveLoop × Coordinator := createLoop dir₀ "beta" sA.2

/-- The loop B object held by the caller. -/
def lB : LiveLoop := sB.1

/-- Scenario: then remove loop A (the removal succeeds; see the C8 witness). -/
def sR : Coordinator := (removeLoopFromSet lA sB.2).toOption.getD sB.2

/-- Iterated loop creation on a fresh system (each call uses the sample
directory and the body name "a"). -/
def creates (n : Nat) : Coordinator :=
  (fun c => (createLoop dir₀ "a" c).2)^[n] Coordinator.mk0

theorem concatStrs_nil : concatStrs [] = "" := rfl

theorem concatStrs_cons (x : String) (xs : List String) :
    concatStrs (x :: xs) = x ++ concatStrs xs := rfl

theorem concatStrs_append (xs ys : List String) :
    concatStrs (xs ++ ys) = concatStrs xs ++ concatStrs ys := by
  induction xs with
  | nil => simp [concatStrs_nil, String.empty_append]
  | cons x xs ih => simp [concatStrs_cons, ih, String.append_assoc]

theorem foldl_concat {α : Type} (f : α → String) (l : List α) (init : String) :
    l.foldl (fun acc x => acc ++ f x) init = init ++ concatStrs (l.map f) := by
  induction l generalizing init with
  | nil => simp [concatStrs_nil, String.append_empty]
  | cons x xs ih =>
    simp only [List.foldl_cons, List.map_cons, concatStrs_cons, ih, String.append_assoc]

theorem fold_active (c : Coordinator) (init : String) :
    c.activeLoops.foldl (fun acc l => acc ++ l.outputRuby ++ "\n") init
      = init ++ concatStrs (c.activeLoops.map (fun l => l.outputRuby ++ "\n")) := by
  rw [show (fun (acc : String) l => acc ++ LiveLoop.outputRuby l ++ "\n")
        = (fun (acc : String) l => acc ++ (LiveLoop.outputRuby l ++ "\n")) from
      funext fun acc => funext fun l => String.append_assoc ..]
  exact foldl_concat _ _ _

theorem fold_dead (dead : List LiveLoop) (init : String) :
    dead.foldl (fun acc l => acc ++ "live_loop :" ++ l.tag ++ " do\n  stop\nend\n") init
      = init ++ concatStrs (dead.map (fun l => "live_loop :" ++ l.tag ++ " do\n  stop\nend\n")) := by
  rw [show (fun (acc : String) (l : LiveLoop) =>
          acc ++ "live_loop :" ++ l.tag ++ " do\n  stop\nend\n")
        = (fun (acc : String) (l : LiveLoop) =>
          acc ++ ("live_loop :" ++ l.tag ++ " do\n  stop\nend\n")) from
      funext fun acc => funext fun l => by simp [String.append_assoc]]
  exact foldl_concat _ _ _

theorem generateRuby_char (c : Coordinator) :
    (Coordinator.generateRuby c).outputRuby =
      "\n      with_fx \"sonic-pi-fx_scope_out\", scope_num: "
        ++ toString GLOBAL_OSCILLOSCOPE_INDEX ++ " do\n        "
        ++ (c.header ++ "\n" ++ concatStrs (c.activeLoops.map (fun l => l.outputRuby ++ "\n")))
        ++ "\n      end\n    "
        ++ concatStrs (c.deadLoops.map (fun l => "live_loop :" ++ l.tag ++ " do\n  stop\nend\n")) ∧
    (Coordinator.generateRuby c).deadLoops = [] ∧
    (Coordinator.generateRuby c).published
      = c.published ++ [(Coordinator.generateRuby c).outputRuby] ∧
    (Coordinator.generateRuby c).activeLoops = c.activeLoops ∧
    (Coordinator.generateRuby c).freeScopeNums = c.freeScopeNums ∧
    (Coordinator.generateRuby c).idCount = c.idCount ∧
    (Coordinator.generateRuby c).header = c.header := by
  unfold Coordinator.generateRuby
  by_cases h : c.deadLoops.isEmpty
  · have hd : c.deadLoops = [] := List.isEmpty_iff.mp h
    rw [if_pos h]
    refine ⟨?_, hd, rfl, rfl, rfl, rfl, rfl⟩
    rw [hd]
    simp only [List.map_nil, concatStrs_nil, String.append_empty]
    rw [fold_active]
  · rw [if_neg h]
    refine ⟨?_, rfl, rfl, rfl, rfl, rfl, rfl⟩
    rw [fold_dead, fold_active]

theorem createLoop_scope (dir : Directory) (name : String) (c : Coordinator) :
    (createLoop dir name c).1.scopeNum = shiftVal c.freeScopeNums := rfl

theorem createLoop_pool (dir : Directory) (name : String) (c : Coordinator) :
    (createLoop dir name c).2.freeScopeNums = c.freeScopeNums.tail := by
  unfold createLoop
  exact ((generateRuby_char _).2.2.2.2.1)

theorem createLoop_active (dir : Directory) (name : String) (c : Coordinator) :
    (createLoop dir name c).2.activeLoops
      = c.activeLoops ++ [(createLoop dir name c).1] := by
  unfold createLoop
  exact ((generateRuby_char _).2.2.2.1)

theorem createLoop_activeLen (dir : Directory) (name : String) (c : Coordinator) :
    (createLoop dir name c).2.activeLoops.length = c.activeLoops.length + 1 := by
  rw [createLoop_active, List.length_append, List.length_singleton]

theorem creates_pool (n : Nat) : (creates n).freeScopeNums = initialPool.drop n := by
  induction n with
  | zero => rfl
  | succ k ih =>
    unfold creates
    rw [Function.iterate_succ_apply']
    show (createLoop dir₀ "a" (creates k)).2.freeScopeNums = _
    rw [createLoop_pool, ih, List.tail_drop]

theorem creates_activeLen (n : Nat) : (creates n).activeLoops.length = n := by
  induction n with
  | zero => rfl
  | succ k ih =>
    unfold creates
    rw [Function.iterate_succ_apply']
    show (createLoop dir₀ "a" (creates k)).2.activeLoops.length = _
    rw [createLoop_activeLen, ih]

theorem pool_exhausted : (creates 126).freeScopeNums = [] := by
  rw [creates_pool]
  decide

theorem creates_succ_last : creates 127 = (createLoop dir₀ "a" (creates 126)).2 := by
  unfold creates
  rw [Function.iterate_succ_apply']

theorem numToStr_one : numToStr 1 = "1" := by decide

/-- C1: the claimed invariant — for every finite sequence of createLoop and
removeLoop calls from a fresh Coordinator, channels held by active loops are
pairwise distinct, disjoint from the pool, and within [2,127] — is violated
by the code: after 127 consecutive createLoop calls the 127th loop is
registered in activeLoops holding the undefined channel (`none`), which lies
outside [2,127]. The missing exhaustion check is the source's own TODO. -/
theorem C1_channel_invariant_violated :
    (∃ l, l ∈ (creates 127).activeLoops ∧ l.scopeNum = none) ∧
    (creates 127).activeLoops.length = 127 := by
  refine ⟨⟨(createLoop dir₀ "a" (creates 126)).1, ?_, ?_⟩, creates_activeLen 127⟩
  · rw [creates_succ_last, createLoop_active]
    exact List.mem_append_right _ (List.mem_singleton.mpr rfl)
  · rw [createLoop_scope, pool_exhausted]
    rfl

/-- C2 counterexample: the claim says acquisition returns the LOWEST-numbered
free channel, so after loops A (channel 2) and B (channel 3) are created and
A is removed, loop C should receive channel 2. In the code the pool is a FIFO
queue (shift from the front, push to the back): channel 2 is free, yet C
receives channel 4. -/
theorem C2_lowest_free_counterexample :
    lA.scopeNum = some 2 ∧ lB.scopeNum = some 3 ∧
    (removeLoopFromSet lA sB.2).isOk = true ∧
    some 2 ∈ sR.freeScopeNums ∧
    (createLoop dir₀ "gamma" sR).1.scopeNum = some 4 ∧
    (createLoop dir₀ "gamma" sR).1.scopeNum ≠ some 2 := by
  refine ⟨by decide, by decide, by decide, by decide, by decide, by decide⟩

/-- C2 amended: whenever the free pool is non-empty, acquisition during
createLoop removes and returns the FIRST element of the free list (the pool
is FIFO: freed channels are appended at the back), not the lowest-numbered
free channel. -/
theorem C2_fifo_acquire (dir : Directory) (name : String) (c : Coordinator)
    (p : Option Int) (ps : List (Option Int)) (h : c.freeScopeNums = p :: ps) :
    (createLoop dir name c).1.scopeNum = p ∧
    (createLoop dir name c).2.freeScopeNums = ps := by
  rw [createLoop_scope, createLoop_pool, h]
  exact ⟨rfl, rfl⟩

/-- C2 witness: on a fresh Coordinator the pool starts 2,3,...,127, so the
first created loop receives channel 2 and the pool's remainder is 3..127. -/
theorem C2_fifo_acquire_witness :
    (createLoop dir₀ "x" Coordinator.mk0).1.scopeNum = some 2 ∧
    (createLoop dir₀ "x" Coordinator.mk0).2.freeScopeNums
      = (List.range' 3 125).map (fun i => some (i : Int)) :=
  C2_fifo_acquire dir₀ "x" Coordinator.mk0 (some 2)
    ((List.range' 3 125).map (fun i => some (i : Int))) rfl

/-- C3: the claim says createLoop on an empty pool fails with an explicit
ResourceExhausted error, registers no loop and changes no state. In the code
getFreeScope just calls Array.shift (the check is a TODO comment), so on the
empty pool the 127th createLoop raises nothing, registers a 127th active
loop, and hands it the invalid channel `undefined` (`none`). -/
theorem C3_exhaustion_silently_ignored :
    (creates 126).freeScopeNums = [] ∧
    (createLoop dir₀ "z" (creates 126)).1.scopeNum = none ∧
    (createLoop dir₀ "z" (creates 126)).1
      ∈ (createLoop dir₀ "z" (creates 126)).2.activeLoops ∧
    (createLoop dir₀ "z" (creates 126)).2.activeLoops.length = 127 ∧
    (createLoop dir₀ "z" (creates 126)).2.freeScopeNums = [] := by
  refine ⟨pool_exhausted, ?_, ?_, ?_, ?_⟩
  · rw [createLoop_scope, pool_exhausted]
    rfl
  · rw [createLoop_active]
    exact List.mem_append_right _ (List.mem_singleton.mpr rfl)
  · rw [createLoop_activeLen, creates_activeLen]
  · rw [createLoop_pool, pool_exhausted]
    rfl

/-- C4: compile() does nest effect wrapper, volume wrapper, telemetry wrapper
and declaration as claimed, but the innermost text is the string "undefined",
not the raw body template looked up at creation: the constructor binds the
looked-up template to a local `const rawRuby` and never assigns
`this.rawRuby`, contradicting the source's own readonly field and lookup. -/
theorem C4_raw_body_is_undefined :
    lA.outputRuby = specCompile "undefined" lA ∧
    dir₀.getRubyForLiveLoop "alpha" = "play :alpha" ∧
    lA.outputRuby ≠ specCompile (dir₀.getRubyForLiveLoop "alpha") lA := by
  refine ⟨by decide, by decide, by decide⟩

/-- C5: every compiled program is the header plus one declaration block per
member of activeLoops (in set-iteration order), wrapped once in the single
global telemetry wrapper keyed to channel 1, followed by exactly one stop
block per member of deadLoops (pendingRemoval), and deadLoops is emptied by
the same compile; the text is handed to the transport in one runCode call. -/
theorem C5_compiled_program_shape (c : Coordinator) :
    (Coordinator.generateRuby c).outputRuby =
      "\n      with_fx \"sonic-pi-fx_scope_out\", scope_num: "
        ++ toString GLOBAL_OSCILLOSCOPE_INDEX ++ " do\n        "
        ++ (c.header ++ "\n" ++ concatStrs (c.activeLoops.map (fun l => l.outputRuby ++ "\n")))
        ++ "\n      end\n    "
        ++ concatStrs (c.deadLoops.map (fun l => "live_loop :" ++ l.tag ++ " do\n  stop\nend\n")) ∧
    GLOBAL_OSCILLOSCOPE_INDEX = 1 ∧
    (Coordinator.generateRuby c).deadLoops = [] ∧
    (Coordinator.generateRuby c).published
      = c.published ++ [(Coordinator.generateRuby c).outputRuby] ∧
    (Coordinator.generateRuby c).activeLoops = c.activeLoops := by
  obtain ⟨h1, h2, h3, h4, -⟩ := generateRuby_char c
  exact ⟨h1, rfl, h2, h3, h4⟩

/-- C6: the claim requires floor-modulo effect navigation (never negative)
and next/prev round-trips for every starting index and catalog size ≥ 1. The
code uses the JS `%` (truncated remainder): on a catalog of 2 effects,
nextEffect from index 1 reaches 0 and prevEffect then yields -1, not 1, and a
single prevEffect from index 0 also yields the negative index -1. -/
theorem C6_effect_wraparound_negative :
    lA.effectNum = 0 ∧ dir₀.numOfEffects = 2 ∧
    (lA.nextEffect dir₀).effectNum = 1 ∧
    ((lA.nextEffect dir₀).prevEffect dir₀).effectNum = 0 ∧
    (((lA.nextEffect dir₀).nextEffect dir₀).prevEffect dir₀).effectNum = -1 ∧
    (lA.prevEffect dir₀).effectNum = -1 := by
  refine ⟨by decide, rfl, by decide, by decide, by decide, by decide⟩

/-- C7 counterexample: the claim says setVolume triggers a recompile and
republish of the full program. It clamps as claimed, but the method only
assigns the volume field: the loop's compiled fragment, the coordinator's
output and the transport log are all unchanged by setVolume(0.3). -/
theorem C7_no_republish_counterexample :
    (setVolumeSys (mkRat 3 10) lA sA.2).1.volume = mkRat 3 10 ∧
    (setVolumeSys (mkRat 3 10) lA sA.2).1.outputRuby = lA.outputRuby ∧
    (setVolumeSys (mkRat 3 10) lA sA.2).2.published = sA.2.published ∧
    (setVolumeSys (mkRat 3 10) lA sA.2).2.outputRuby = sA.2.outputRuby := by
  refine ⟨by decide, by decide, rfl, rfl⟩

/-- C7 amended: setVolume(v) clamps exactly as claimed (v<0 to 0, v>1 to 1,
else v; in particular -5 to 0, 5 to 1, 3/10 to 3/10) but triggers NO
recompilation and NO republication: the loop's compiled text, the
coordinator's output text and the published log are unchanged. -/
theorem C7_clamp_without_republish (v : ℚ) (l : LiveLoop) (c : Coordinator) :
    (setVolumeSys v l c).1.volume = (if v < 0 then 0 else if v > 1 then 1 else v) ∧
    (setVolumeSys (-5) l c).1.volume = 0 ∧
    (setVolumeSys 5 l c).1.volume = 1 ∧
    (setVolumeSys (mkRat 3 10) l c).1.volume = mkRat 3 10 ∧
    (setVolumeSys v l c).1.outputRuby = l.outputRuby ∧
    (setVolumeSys v l c).2.published = c.published ∧
    (setVolumeSys v l c).2.outputRuby = c.outputRuby := by
  refine ⟨?_, ?_, ?_, ?_, ?_, rfl, rfl⟩
  · simp only [setVolumeSys, LiveLoop.setVolume]
    split_ifs <;> rfl
  · norm_num [setVolumeSys, LiveLoop.setVolume]
  · norm_num [setVolumeSys, LiveLoop.setVolume]
  · have h1 : ¬ (mkRat 3 10 < 0) := by decide
    have h2 : ¬ ((1:ℚ) < mkRat 3 10) := by decide
    simp only [setVolumeSys, LiveLoop.setVolume, h1, h2, gt_iff_lt, if_neg, if_false]
  · simp only [setVolumeSys, LiveLoop.setVolume]
    split_ifs <;> rfl

/-- C8: removeLoop of a loop that is not active (including a second removal
of the same loop) fails with the loop-not-active error and, the operation
being pure in the model, mutates nothing; removal of an active loop succeeds,
removes it from the active set, appends its channel back to the pool,
publishes a program ending in its stop block, and leaves the pending-removal
set empty after that publish. -/
theorem C8_removeLoop_spec (c : Coordinator) (l : LiveLoop) :
    (c.activeLoops.any (fun a => a.id == l.id) = false →
      removeLoopFromSet l c
        = Except.error ("Loop tag " ++ l.tag ++ " not present.")) ∧
    (∀ c2, removeLoopFromSet l c = Except.ok c2 →
      c2.freeScopeNums = c.freeScopeNums ++ [l.scopeNum] ∧
      c2.activeLoops = c.activeLoops.filter (fun a => !(a.id == l.id)) ∧
      c2.deadLoops = [] ∧
      c2.published = c.published ++ [c2.outputRuby] ∧
      ∃ pre, c2.outputRuby
        = pre ++ ("live_loop :" ++ l.tag ++ " do\n  stop\nend\n")) := by
  constructor
  · intro h
    unfold removeLoopFromSet
    rw [h]
    rfl
  · intro c2 hok
    unfold removeLoopFromSet at hok
    by_cases h : c.activeLoops.any (fun a => a.id == l.id)
    · rw [if_pos h] at hok
      obtain rfl : Coordinator.generateRuby _ = c2 := Except.ok.inj hok
      obtain ⟨hout, hdead, hpub, hact, hpool, -, -⟩ := generateRuby_char _
      refine ⟨hpool, hact, hdead, hpub, ?_⟩
      rw [hout]
      refine ⟨"\n      with_fx \"sonic-pi-fx_scope_out\", scope_num: "
        ++ toString GLOBAL_OSCILLOSCOPE_INDEX ++ " do\n        "
        ++ (c.header ++ "\n"
              ++ concatStrs ((c.activeLoops.filter (fun a => !(a.id == l.id))).map
                   (fun a => a.outputRuby ++ "\n")))
        ++ "\n      end\n    "
        ++ concatStrs (c.deadLoops.map
             (fun a => "live_loop :" ++ a.tag ++ " do\n  stop\nend\n")), ?_⟩
      rw [List.map_append, concatStrs_append]
      simp [concatStrs_cons, concatStrs_nil, String.append_empty, String.append_assoc]
    · rw [if_neg h] at hok
      exact Except.noConfusion hok

/-- C8 witness: in the concrete scenario, removing A a second time fails with
the loop-not-active error, and the first (successful) removal freed channel 2
to the back of the pool, filtered A out of the active set, emptied the
pending set, and published a program ending in A's stop block. -/
theorem C8_removeLoop_witness :
    removeLoopFromSet lA sR
      = Except.error ("Loop tag " ++ lA.tag ++ " not present.") ∧
    (sR.freeScopeNums = sB.2.freeScopeNums ++ [lA.scopeNum] ∧
     sR.activeLoops = sB.2.activeLoops.filter (fun a => !(a.id == lA.id)) ∧
     sR.deadLoops = [] ∧
     sR.published = sB.2.published ++ [sR.outputRuby] ∧
     ∃ pre, sR.outputRuby
       = pre ++ ("live_loop :" ++ lA.tag ++ " do\n  stop\nend\n")) :=
  ⟨(C8_removeLoop_spec sR lA).1 (by decide),
   (C8_removeLoop_spec sB.2 lA).2 sR rfl⟩

/-- C9 counterexample: the claim says mutating operations on a deleted loop
fail with AlreadyRemoved and leave all state unchanged. After A is deleted
(it is in no registry set), setVolume still changes its volume from 1 to 0,
and nextEffect still changes its effect index and publishes a fresh program —
no error, state changed. -/
theorem C9_no_already_removed_counterexample :
    (sR.activeLoops.any (fun a => a.id == lA.id)) = false ∧
    sR.deadLoops.isEmpty = true ∧
    lA.volume = 1 ∧
    (LiveLoop.setVolume (-5) lA).volume = 0 ∧
    lA.effectNum = 0 ∧
    (nextEffectSys dir₀ lA sR).1.effectNum = 1 ∧
    (nextEffectSys dir₀ lA sR).2.published.length = sR.published.length + 1 := by
  refine ⟨by decide, by decide, by decide, by decide, by decide, by decide, by decide⟩

/-- C9 amended: LiveLoop has no lifecycle-state field and its mutating
operations are unguarded — on ANY loop, deleted or not, setVolume assigns the
clamped volume (publishing nothing) and nextEffect/prevEffect assign the
truncated-remainder index and publish one more program; none of them can
fail. -/
theorem C9_mutations_unguarded (dir : Directory) (v : ℚ) (l : LiveLoop) (c : Coordinator) :
    (setVolumeSys v l c).1.volume = (if v < 0 then 0 else if v > 1 then 1 else v) ∧
    (setVolumeSys v l c).2.published = c.published ∧
    (nextEffectSys dir l c).1.effectNum = (l.effectNum + 1).tmod dir.numOfEffects ∧
    (nextEffectSys dir l c).2.published
      = c.published ++ [(nextEffectSys dir l c).2.outputRuby] ∧
    (prevEffectSys dir l c).1.effectNum = (l.effectNum - 1).tmod dir.numOfEffects ∧
    (prevEffectSys dir l c).2.published
      = c.published ++ [(prevEffectSys dir l c).2.outputRuby] := by
  refine ⟨?_, rfl, rfl, ?_, rfl, ?_⟩
  · simp only [setVolumeSys, LiveLoop.setVolume]
    split_ifs <;> rfl
  · exact (generateRuby_char _).2.2.1
  · exact (generateRuby_char _).2.2.1

/-- C10: a newly constructed LiveLoop starts with volume 1 and effect index 0
(effect data looked up at directory index 0), and its first compiled fragment
renders the volume wrapper with amp 1 and the effect wrapper with the
directory's effect-0 name. -/
theorem C10_initial_fields (dir : Directory) (name : String) (c : Coordinator) :
    (createLoop dir name c).1.volume = 1 ∧
    (createLoop dir name c).1.effectNum = 0 ∧
    (createLoop dir name c).1.effectData = dir.getEffect 0 ∧
    (createLoop dir name c).1.outputRuby =
      "live_loop :" ++ (createLoop dir name c).1.tag ++ " do\n"
        ++ ("with_fx \"sonic-pi-fx_scope_out\", scope_num: "
              ++ optIntToStr ((createLoop dir name c).1.scopeNum) ++ " do\n"
        ++ ("with_fx :level, amp: " ++ "1" ++ " do\n"
        ++ ("with_fx :" ++ (dir.getEffect 0).name ++ " do\n" ++ "undefined" ++ "\nend\n")
        ++ "\nend\n") ++ "\nend\n") ++ "\nend" := by
  refine ⟨rfl, rfl, rfl, ?_⟩
  show (LiveLoop.generateRuby _).outputRuby = _
  simp only [createLoop, LiveLoop.generateRuby, jsStr, numToStr_one]
